import Mathlib

/-
Verification of src/bridge.py (truss-bridge influence-line analysis).

The embedding works over exact arithmetic: the Python floats of the source
are modelled as rationals wherever the source only adds, multiplies,
divides and compares them, and as real numbers where the source applies
sqrt, atan, sin, cos (Unit.alpha, Unit.length, Unit.kij). Python
exceptions (IndexError, AssertionError, NameError, ZeroDivisionError,
ValueError) are modelled with an Except monad over the PyErr type below.
Reduced vectors are Lists (or functions out of Fin n for the force
vectors, which are written at distinct indices only).
-/

namespace Py

/-- Python exceptions raised by the embedded code paths. -/
inductive PyErr where
  | indexError
  | assertionError
  | nameError
  | zeroDivisionError
  | valueError
  | unboundLocalError
  | attributeError
deriving DecidableEq, Repr

/-- Node of src/bridge.py (class Node): an id and an immutable planar
coordinate. The vdisps list the class also carries is the influence line
whose construction is modelled separately by sweep_influence_lines. -/
structure Node where
  num : ℤ
  x : ℚ
  y : ℚ
deriving DecidableEq, Repr

/-- Member of src/bridge.py (class Unit): id, the two endpoint nodes and
the section-dimension list [height, flange thickness, web thickness,
flange width]. The axial_forces list it also carries is the influence line
modelled separately by sweep_influence_lines. -/
structure Unit where
  num : ℤ
  node_i : Node
  node_j : Node
  beam_section_data : List ℚ
deriving DecidableEq, Repr

/-- Embeds the Unit.area property (src/bridge.py lines 93-101): the body
unpacks beam_section_data as a, b, c, d = [height, flange thickness, web
thickness, flange width] and returns 2 * b * d + (a - 2 * b) * c; a list
of any other arity makes the Python tuple unpacking raise (valueError).
The write-once cache (self dot _area) is dropped: the value is a pure
function of the section data, and a cached value is always the one this
formula produced. -/
def Unit.area (u : Unit) : Except PyErr ℚ :=
  match u.beam_section_data with
  | [a, b, c, d] => Except.ok (2 * b * d + (a - 2 * b) * c)
  | _ => Except.error PyErr.valueError

/-- Stated from the wording of the spec, for comparison with Unit.area
(this is the one definition that follows the spec rather than the source):
2 * flange_width * flange_thickness + (height - 2 * flange_width) *
web_thickness. -/
def specArea (height flange_t web_t flange_w : ℚ) : ℚ :=
  2 * flange_w * flange_t + (height - 2 * flange_w) * web_t

/-- A throwaway node used to build concrete members for claims that only
look at section data or member numbers. -/
def node0 : Node := ⟨0, 0, 0⟩

/-- The concrete member of the C1 scenario: height 1.0, flange thickness
0.02, web thickness 0.01, flange width 0.3. -/
def c1_unit : Unit := ⟨1, node0, node0, [1, 1 / 50, 1 / 100, 3 / 10]⟩

/-- Embeds Bridge.get_unit_worst_cases_load_trick (src/bridge.py lines
463-472). Its first statement calls the bare global name
compute_uniform_load_max_trick with the argument data; neither name is
defined anywhere in the module (the methods actually defined are
self.get_uniform_load_max_trick and self.get_both_load_max_trick, and the
parameter is named unit_axial_forces), so every call raises NameError
before any numeric work happens. -/
def get_unit_worst_cases_load_trick (unit_axial_forces load : List ℚ)
    (pos_max : WithBot ℚ) (neg_min : WithTop ℚ) :
    Except PyErr ((WithBot ℚ) × (WithTop ℚ)) :=
  Except.error PyErr.nameError

/-- Embeds Bridge.get_worst_cases_load (src/bridge.py lines 509-515): for
each member in order it calls get_unit_worst_cases_load_trick on the
member influence line with pos_max = -infinity (bottom) and neg_min =
+infinity (top) and stores the returned pair on the member; a raised
exception aborts the loop at the first member. -/
def get_worst_cases_load (units_axial_forces : List (List ℚ)) (load : List ℚ) :
    Except PyErr (List ((WithBot ℚ) × (WithTop ℚ))) :=
  units_axial_forces.mapM (fun af => get_unit_worst_cases_load_trick af load ⊥ ⊤)

/-- Python equality between a Unit instance and an int. The class Unit
defines no __eq__ (only __init__ and __repr__), so the comparison falls
back on both sides to the default identity test, and a Unit object is
never the same object as an int: the result is always False. -/
def pyEqUnitInt (u : Unit) (n : ℤ) : Bool := false

/-- Python membership test (unit in list_of_ints), an any over == against
each element. -/
def pyMemUnitIntList (u : Unit) (l : List ℤ) : Bool := l.any (pyEqUnitInt u)

/-- The literal list of line 651 of src/bridge.py (intended vertical
members of the 64 m bridge). -/
def vertical_unit_nums_64 : List ℤ := [3, 7, 11, 15, 19, 23, 27]

/-- shaft_units of line 840 of src/bridge.py: list(range(3, 75 + 1, 4)). -/
def shaft_units_160 : List ℤ := (List.range' 3 19 4).map (fun n => (n : ℤ))

/-- Embeds the sign-selection step of
Bridge_64.get_one_unit_axial_force_moment (src/bridge.py lines 649-654):
f is the computed axial magnitude sqrt(Fij0 squared + Fij1 squared) and
fij0 the local axial-x component Fij[0]; the recorded force is f or -f
according to the membership test (unit in [3, 7, 11, 15, 19, 23, 27]). -/
def signed_axial_force_64 (u : Unit) (f fij0 : ℚ) : ℚ :=
  if pyMemUnitIntList u vertical_unit_nums_64 then (if fij0 > 0 then f else -f)
  else (if fij0 > 0 then -f else f)

/-- Embeds the sign-selection step of
Bridge_160.get_one_unit_axial_force_moment (src/bridge.py lines 840-844),
with the membership test (unit in shaft_units). -/
def signed_axial_force_160 (u : Unit) (f fij0 : ℚ) : ℚ :=
  if pyMemUnitIntList u shaft_units_160 then (if fij0 > 0 then f else -f)
  else (if fij0 > 0 then -f else f)

/-- A member numbered 3 (listed among the intended verticals of the 64 m
bridge). -/
def c4_unit3 : Unit := ⟨3, node0, node0, []⟩

/-- Python int() applied to a numeric value: truncation toward zero. -/
def pyInt (q : ℚ) : ℤ := if 0 ≤ q then ⌊q⌋ else ⌈q⌉

/-- Embeds the on-node classification of Bridge.get_nodes_vdisps_moment
(src/bridge.py lines 275-296): the load point is classified on-node iff
int(point) == point and point is a member of
[8.0 * i for i in bottom_chord_nodes_indices], with the indices being
range(nBC). -/
def on_node_classify (nBC : ℕ) (point : ℚ) : Bool :=
  decide (((pyInt point : ℤ) : ℚ) = point) &&
    decide (point ∈ (List.range nBC).map (fun i : ℕ => 8 * (i : ℚ)))

/-- prev_node_index of the between-node branches (and current_node_index
of the on-node branches): int(point // 8). -/
def prev_node_index (point : ℚ) : ℤ := ⌊point / 8⌋

/-- current_node_index of the on-node branches: int(point // 8). -/
def current_node_index (point : ℚ) : ℤ := ⌊point / 8⌋

/-- prev_node_offset: point - 8 * prev_node_index (src/bridge.py line
584). -/
def prev_node_offset (point : ℚ) : ℚ := point - 8 * prev_node_index point

/-- next_node_force: - prev_node_offset / 8, the lever-rule share of the
next node (src/bridge.py line 587). -/
def next_node_force (point : ℚ) : ℚ := - prev_node_offset point / 8

/-- prev_node_force: - 1 - next_node_force (src/bridge.py line 588). -/
def prev_node_force (point : ℚ) : ℚ := -1 - next_node_force point

/-- Embeds the reduced force vector built by
Bridge_64.get_nodes_vdisps_moment_between_nodes (src/bridge.py lines
575-599). Entry k of the zero-initialised column vector after the two
guarded assignments (the two target indices are distinct, so the case
split reproduces the final array). nRed is reduced_K.shape[0];
bc_nodes_indices[0] = 0 and bc_nodes_indices[-2] = nBC - 2. The parameter
P is the bridge attribute self.P: it is in scope in the method but never
used by it - the lever forces are fractions of a hard-coded unit load. -/
def between_nodes_F64 (nRed nBC : ℕ) (P : ℚ) (point : ℚ) : Fin nRed → ℚ :=
  let prev := prev_node_index point
  let next := prev + 1
  fun k =>
    if (k : ℤ) = 4 * (prev + 1) - 5 ∧ prev ≠ 0 then prev_node_force point
    else if (k : ℤ) = 4 * (next + 1) - 5 ∧ prev ≠ (nBC : ℤ) - 2 then
      next_node_force point
    else 0

/-- Embeds the reduced force vector built by
Bridge_160.get_nodes_vdisps_moment_between_nodes (src/bridge.py lines
729-776). mid is bc_middle_node_index = len(bottom_chord_nodes_nums) // 2;
the literal 21 of the last case is the literal written in the source (the
middle NODE NUMBER, compared there against chord INDICES, which range over
0..nBC-1). All assignments hit distinct indices, so entry k of the final
array is this case split. -/
def between_nodes_F160 (nRed nBC : ℕ) (point : ℚ) : Fin nRed → ℚ :=
  let mid : ℤ := ((nBC / 2 : ℕ) : ℤ)
  let prev := prev_node_index point
  let next := prev + 1
  fun k =>
    if next ≤ mid - 1 then
      if prev = 0 then
        (if (k : ℤ) = 4 * (next + 1) - 5 then next_node_force point else 0)
      else
        (if (k : ℤ) = 4 * (prev + 1) - 5 then prev_node_force point
         else if (k : ℤ) = 4 * (next + 1) - 5 then next_node_force point else 0)
    else if mid + 1 ≤ prev then
      if next = (nBC : ℤ) - 1 then
        (if (k : ℤ) = 4 * (prev + 1) - 6 then prev_node_force point else 0)
      else
        (if (k : ℤ) = 4 * (prev + 1) - 6 then prev_node_force point
         else if (k : ℤ) = 4 * (next + 1) - 6 then next_node_force point else 0)
    else
      if next = 21 then
        (if (k : ℤ) = 4 * (prev + 1) - 5 then prev_node_force point else 0)
      else if prev = 21 then
        (if (k : ℤ) = 4 * (next + 1) - 6 then next_node_force point else 0)
      else 0

/-- The body of Bridge_64.get_nodes_vdisps_moment_on_nodes (src/bridge.py
lines 560-572) with its one broken read repaired: in the source both
branches read self.reduced_K, which raises AttributeError because Bridge.K
line 236 reads the undefined attribute self.n (see Bridge.n below and
get_nodes_vdisps_moment_on_nodes_64 for the faithful embedding); this
intended-behavior variant takes the reduced shape as the parameter nRed,
as if self.n read the node count the way every other line of the class
assumes. Under that repair, a support chord index returns the zero vector
and the solver is never consulted; otherwise the force vector with -P at
index 4 * (current + 1) - 5 is solved. -/
def on_nodes_D64_intended (nRed nBC : ℕ) (P : ℚ) (solve : List ℚ → List ℚ)
    (point : ℚ) : List ℚ :=
  if current_node_index point = 0 ∨ current_node_index point = (nBC : ℤ) - 1 then
    List.replicate nRed 0
  else
    solve (List.ofFn (fun k : Fin nRed =>
      if (k : ℤ) = 4 * (current_node_index point + 1) - 5 then -P else 0))

/-- The body of Bridge_160.get_nodes_vdisps_moment_on_nodes (src/bridge.py
lines 700-726) under the same repair of the self.n read as
on_nodes_D64_intended: the supports are the two chord ends and the centre
index nBC // 2; below the centre the loaded index is
4 * (current + 1) - 5, above it 4 * (current + 1) - 6. -/
def on_nodes_D160_intended (nRed nBC : ℕ) (P : ℚ) (solve : List ℚ → List ℚ)
    (point : ℚ) : List ℚ :=
  if current_node_index point = 0 ∨
      current_node_index point = ((nBC / 2 : ℕ) : ℤ) ∨
      current_node_index point = (nBC : ℤ) - 1 then
    List.replicate nRed 0
  else
    solve (List.ofFn (fun k : Fin nRed =>
      if current_node_index point < ((nBC / 2 : ℕ) : ℤ) then
        (if (k : ℤ) = 4 * (current_node_index point + 1) - 5 then -P else 0)
      else
        (if (k : ℤ) = 4 * (current_node_index point + 1) - 6 then -P else 0)))

/-- Python indexing into a list (or 1-column array) with an int index:
negative indices count from the end, anything out of range raises
IndexError. -/
def pyGet (l : List ℚ) (i : ℤ) : Except PyErr ℚ :=
  let j : ℤ := if i < 0 then i + l.length else i
  match l[j.toNat]? with
  | some x => if 0 ≤ j then Except.ok x else Except.error PyErr.indexError
  | none => Except.error PyErr.indexError

/-- The value appended for one node by Bridge_64.save_nodes_vdisps_moment
(src/bridge.py lines 545-557): the two chord end nodes (node numbers
bc_first and bc_last) record a literal 0, every other node records entry
2 * (node_num - 1) - 1 of the reduced displacement vector. -/
def save_nodes_vdisps_moment_64 (bc_first bc_last : ℤ) (D : List ℚ)
    (node_num : ℤ) : Except PyErr ℚ :=
  if node_num = bc_first ∨ node_num = bc_last then Except.ok 0
  else pyGet D (2 * (node_num - 1) - 1)

/-- The discretised load positions of a sweep: np.arange(0, end + 0.1,
0.1) with end = 8 * (nBC - 1) (src/bridge.py lines 316-317 and 385-386),
modelled exactly as k / 10 for k = 0 .. 80 * (nBC - 1). -/
def bc_axis (nBC : ℕ) : List ℚ :=
  (List.range (80 * (nBC - 1) + 1)).map (fun k : ℕ => (k : ℚ) / 10)

/-- One sweep step: append to every influence line its sample at the
current point (Bridge.save_nodes_vdisps_moment and
Bridge.save_units_axial_forces_moment both append exactly one value per
node resp. member). -/
def save_moment_all (st : List (ℤ × List ℚ)) (f : ℤ → ℚ) :
    List (ℤ × List ℚ) :=
  st.map (fun p => (p.1, p.2 ++ [f p.1]))

/-- Embeds the sweep loops Bridge.get_nodes_vdisps (src/bridge.py lines
304-325) and Bridge.get_units_axial_forces (lines 373-394): clear every
influence line, then for every point of bc_axis compute the per-position
moment - a computation that can raise, and in the source does raise
through self.reduced_K and the undefined self.n - and append one sample
per key (node number resp. member number); a raise aborts the loop, so no
later position is visited and nothing more is appended. -/
def sweep_influence_lines (keys : List ℤ) (nBC : ℕ)
    (sample : ℚ → Except PyErr (ℤ → ℚ)) :
    Except PyErr (List (ℤ × List ℚ)) :=
  (bc_axis nBC).foldlM
    (fun st point =>
      match sample point with
      | Except.error e => Except.error e
      | Except.ok f => Except.ok (save_moment_all st f))
    (keys.map (fun k => (k, ([] : List ℚ))))

/-- Embeds get_u_and_v inside Bridge_64.get_one_unit_axial_force_moment
(src/bridge.py lines 610-633): the assertion first, then the branch on the
position of the node among the bottom chord; the fall-through case
(unreachable once the assertion holds) would leave u and v unbound in
Python. -/
def get_u_and_v_64 (bc_first bc_last : ℤ) (D : List ℚ) (node_num : ℤ) :
    Except PyErr (ℚ × ℚ) :=
  if ¬ (bc_first ≤ node_num ∧ node_num ≤ bc_last) then
    Except.error PyErr.assertionError
  else if node_num = bc_first then Except.ok (0, 0)
  else if bc_first < node_num ∧ node_num < bc_last then
    match pyGet D (2 * (node_num - 1) - 2), pyGet D (2 * (node_num - 1) - 1) with
    | Except.ok u, Except.ok v => Except.ok (u, v)
    | Except.error e, _ => Except.error e
    | _, Except.error e => Except.error e
  else if node_num = bc_last then Except.ok (0, 0)
  else Except.error PyErr.unboundLocalError

/-- Embeds get_u_and_v inside Bridge_160.get_one_unit_axial_force_moment
(src/bridge.py lines 789-822): as for the 64 m bridge but with the middle
node (bc_middle) recording (0, 0) and the nodes above it shifted one index
down (indices 2 * (n - 1) - 3 and 2 * (n - 1) - 2). -/
def get_u_and_v_160 (bc_first bc_middle bc_last : ℤ) (D : List ℚ)
    (node_num : ℤ) : Except PyErr (ℚ × ℚ) :=
  if ¬ (bc_first ≤ node_num ∧ node_num ≤ bc_last) then
    Except.error PyErr.assertionError
  else if node_num = bc_first then Except.ok (0, 0)
  else if bc_first < node_num ∧ node_num < bc_middle then
    match pyGet D (2 * (node_num - 1) - 2), pyGet D (2 * (node_num - 1) - 1) with
    | Except.ok u, Except.ok v => Except.ok (u, v)
    | Except.error e, _ => Except.error e
    | _, Except.error e => Except.error e
  else if node_num = bc_middle then Except.ok (0, 0)
  else if bc_middle < node_num ∧ node_num < bc_last then
    match pyGet D (2 * (node_num - 1) - 3), pyGet D (2 * (node_num - 1) - 2) with
    | Except.ok u, Except.ok v => Except.ok (u, v)
    | Except.error e, _ => Except.error e
    | _, Except.error e => Except.error e
  else if node_num = bc_last then Except.ok (0, 0)
  else Except.error PyErr.unboundLocalError

/-- The two endpoint lookups opening
Bridge_64.get_one_unit_axial_force_moment (src/bridge.py lines 605-636):
get_u_and_v on node_i.num, then on node_j.num; a raise in the first
prevents the second. -/
def unit_endpoint_lookups_64 (bc_first bc_last : ℤ) (D : List ℚ)
    (i j : ℤ) : Except PyErr ((ℚ × ℚ) × (ℚ × ℚ)) :=
  match get_u_and_v_64 bc_first bc_last D i with
  | Except.error e => Except.error e
  | Except.ok uvi =>
    match get_u_and_v_64 bc_first bc_last D j with
    | Except.error e => Except.error e
    | Except.ok uvj => Except.ok (uvi, uvj)

/-- Embeds Unit.alpha (src/bridge.py lines 63-77): pi / 2 for an exactly
vertical member (equal x coordinates), atan of the slope otherwise. -/
noncomputable def Unit.alpha (u : Unit) : ℝ :=
  if u.node_i.x = u.node_j.x then Real.pi / 2
  else Real.arctan (((u.node_j.y : ℝ) - (u.node_i.y : ℝ)) /
    ((u.node_j.x : ℝ) - (u.node_i.x : ℝ)))

/-- Embeds Unit.length (src/bridge.py lines 80-90). -/
noncomputable def Unit.length (u : Unit) : ℝ :=
  Real.sqrt (((u.node_j.y : ℝ) - (u.node_i.y : ℝ)) ^ 2 +
    ((u.node_j.x : ℝ) - (u.node_i.x : ℝ)) ^ 2)

/-- The 4x4 direction matrix M of Unit.kij (src/bridge.py lines 111-115). -/
noncomputable def kijM (a : ℝ) : Matrix (Fin 4) (Fin 4) ℝ :=
  Matrix.of
    ![![Real.cos a ^ 2, Real.cos a * Real.sin a,
        -(Real.cos a ^ 2), -(Real.cos a * Real.sin a)],
      ![Real.cos a * Real.sin a, Real.sin a ^ 2,
        -(Real.cos a * Real.sin a), -(Real.sin a ^ 2)],
      ![-(Real.cos a ^ 2), -(Real.cos a * Real.sin a),
        Real.cos a ^ 2, Real.cos a * Real.sin a],
      ![-(Real.cos a * Real.sin a), -(Real.sin a ^ 2),
        Real.cos a * Real.sin a, Real.sin a ^ 2]]

/-- Embeds Unit.kij (src/bridge.py lines 104-122): E * A / l scaling of M.
The area property raises inside its tuple unpacking for a malformed
section list (and that raise happens before the division), and Python
raises ZeroDivisionError when the length is zero; no other statement of
the method can raise. -/
noncomputable def Unit.kij (E : ℚ) (u : Unit) :
    Except PyErr (Matrix (Fin 4) (Fin 4) ℝ) :=
  match u.area with
  | Except.error e => Except.error e
  | Except.ok A =>
    if u.length = 0 then Except.error PyErr.zeroDivisionError
    else Except.ok (((E : ℝ) * (A : ℝ) / u.length) • kijM u.alpha)

/-- Modelled from the spec: utils.partition_kij is imported by
src/bridge.py but utils.py is not under src/. Spec section 4.2 partitions
the member 4x4 local stiffness into four 2x2 sub-blocks; this returns
sub-block (bi, bj). -/
def partition_kij (k : Matrix (Fin 4) (Fin 4) ℝ) (bi bj : Fin 2) :
    Matrix (Fin 2) (Fin 2) ℝ :=
  Matrix.of fun p q =>
    k ⟨2 * (bi : ℕ) + (p : ℕ), by have h1 := bi.isLt; have h2 := p.isLt; omega⟩
      ⟨2 * (bj : ℕ) + (q : ℕ), by have h1 := bj.isLt; have h2 := q.isLt; omega⟩

/-- Modelled from the spec: utils.update_K (not under src/). Spec section
4.2: scatter-add the four sub-blocks of the member matrix into the global
block tensor at (i, i), (i, j), (j, i), (j, j), summing with what is
already there. The (n_nodes, n_nodes, 2, 2) zero tensor is represented as
a total function on block indices (zero outside the allocated range; for a
consistent model every write of the source lands inside it). -/
def update_K (K : ℕ → ℕ → Matrix (Fin 2) (Fin 2) ℝ) (i j : ℕ)
    (k : Matrix (Fin 4) (Fin 4) ℝ) : ℕ → ℕ → Matrix (Fin 2) (Fin 2) ℝ :=
  fun p q =>
    K p q + (if p = i ∧ q = i then partition_kij k 0 0 else 0) +
      (if p = i ∧ q = j then partition_kij k 0 1 else 0) +
      (if p = j ∧ q = i then partition_kij k 1 0 else 0) +
      (if p = j ∧ q = j then partition_kij k 1 1 else 0)

/-- Modelled from the spec: utils.reshape_K (not under src/). Spec section
4.2: flatten the block tensor into a (2 n) x (2 n) matrix with the two
degrees of freedom of each node contiguous, in node order. -/
def reshape_K (K : ℕ → ℕ → Matrix (Fin 2) (Fin 2) ℝ) : ℕ → ℕ → ℝ :=
  fun r c =>
    K (r / 2) (c / 2) ⟨r % 2, Nat.mod_lt r (by omega)⟩
      ⟨c % 2, Nat.mod_lt c (by omega)⟩

/-- Bridge of src/bridge.py, restricted to the fields the embedded
stiffness path reads: the ordered member list and the span length (the
_length constant of the subclass, 64 or 160, handed to reduce_K). -/
structure Bridge where
  units : List Unit
  length : ℤ

/-- Models the attribute read self.n on lines 236 and 240 of
src/bridge.py: no attribute or property named n is ever defined on Bridge,
Bridge_64 or Bridge_160 (the node-count property is named n_nodes, and
nothing assigns self.n), so in Python the read raises AttributeError. -/
def Bridge.n (b : Bridge) : Except PyErr ℕ := Except.error PyErr.attributeError

/-- The loop body of Bridge.K (src/bridge.py line 238):
K = update_K(K, unit, unit.kij), with node id n occupying block index
n - 1 (ids are 1-based in insertion order; the index arithmetic of the
source, for example 2 * (node_num - 1), encodes the same map). -/
noncomputable def kij_step (E : ℚ) (Kb : ℕ → ℕ → Matrix (Fin 2) (Fin 2) ℝ)
    (u : Unit) : Except PyErr (ℕ → ℕ → Matrix (Fin 2) (Fin 2) ℝ) :=
  match Unit.kij E u with
  | Except.error e => Except.error e
  | Except.ok k =>
    Except.ok (update_K Kb (u.node_i.num - 1).toNat (u.node_j.num - 1).toNat k)

/-- Embeds the Bridge.K property (src/bridge.py lines 230-241). The first
statement of its body allocates np.zeros((self.n, self.n, 2, 2)), whose
shape arguments read the undefined attribute self.n: every access of the
property raises AttributeError before any member is visited. The member
loop (scatter-add of each local stiffness over the zero tensor, line 238)
and the reshape (line 240) are kept in the success branch, which is
unreachable because Bridge.n always raises; the payload also carries the
matrix dimension 2 * n for the shape reads downstream. -/
noncomputable def Bridge.K (E : ℚ) (b : Bridge) :
    Except PyErr (ℕ × (ℕ → ℕ → ℝ)) :=
  match Bridge.n b with
  | Except.error e => Except.error e
  | Except.ok n =>
    match b.units.foldlM (kij_step E)
        (fun _ _ => (0 : Matrix (Fin 2) (Fin 2) ℝ)) with
    | Except.error e => Except.error e
    | Except.ok Kb => Except.ok (2 * n, reshape_K Kb)

/-- Modelled from the spec: the profile-specific support-DOF index list
removed by utils.reduce_K (utils.py is not under src/): u1, v1, v16
(flattened indices 0, 1, 31) for the 64 m span and u1, v1, v21, v80
(indices 0, 1, 41, 159) for the 160 m span, matching the reduced
displacement layouts documented in the source docstrings (29 and 156
surviving entries). -/
def reduce_K_removed (len : ℤ) : List ℕ :=
  if len = 64 then [0, 1, 31] else [0, 1, 41, 159]

/-- Modelled from the spec: utils.reduce_K (not under src/) deletes the
support rows and columns from the assembled matrix; entry (r, c) of the
result reads the r-th and c-th surviving indices of the input, and the
first component is the surviving count (the shape of the reduced
matrix). -/
def reduce_K (dimK : ℕ) (K : ℕ → ℕ → ℝ) (len : ℤ) : ℕ × (ℕ → ℕ → ℝ) :=
  let kept := (List.range dimK).filter (fun i => !((reduce_K_removed len).contains i))
  (kept.length, fun r c => K (kept.getD r 0) (kept.getD c 0))

/-- Embeds the Bridge.reduced_K property (src/bridge.py lines 243-248):
reduce_K(self.K, self.length). The self.K read raises AttributeError (the
undefined self.n), so the property always raises before the reduction
could run; the reduction itself sits in the unreachable success branch. -/
noncomputable def Bridge.reduced_K (E : ℚ) (b : Bridge) :
    Except PyErr (ℕ × (ℕ → ℕ → ℝ)) :=
  match Bridge.K E b with
  | Except.error e => Except.error e
  | Except.ok K => Except.ok (reduce_K K.1 K.2 b.length)

/-- Embeds Bridge_64.get_nodes_vdisps_moment_on_nodes (src/bridge.py lines
560-572) including its matrix accesses: the support branch reads
self.reduced_K.shape[0] for the zeros allocation (line 566) and the other
branch reads it for the force vector and the solve (lines 568-570), and
that property read raises AttributeError through Bridge.K and the
undefined self.n, so the method raises for every point. solveF stands for
the linear solve np.linalg.inv(reduced_K) @ F of line 570. -/
noncomputable def get_nodes_vdisps_moment_on_nodes_64 (E : ℚ) (b : Bridge)
    (nBC : ℕ) (P : ℚ) (solveF : (ℕ → ℕ → ℝ) → List ℚ → List ℚ)
    (point : ℚ) : Except PyErr (List ℚ) :=
  if current_node_index point = 0 ∨ current_node_index point = (nBC : ℤ) - 1 then
    match Bridge.reduced_K E b with
    | Except.error e => Except.error e
    | Except.ok rK => Except.ok (List.replicate rK.1 0)
  else
    match Bridge.reduced_K E b with
    | Except.error e => Except.error e
    | Except.ok rK =>
      Except.ok (solveF rK.2 (List.ofFn (fun k : Fin rK.1 =>
        if (k : ℤ) = 4 * (current_node_index point + 1) - 5 then -P else 0)))

/-- Embeds Bridge_160.get_nodes_vdisps_moment_on_nodes (src/bridge.py
lines 700-726) including its matrix accesses, which raise exactly as in
the 64 m case: supports are the two chord ends and the centre index
nBC // 2, and the loaded index is 4 * (current + 1) - 5 below the centre,
4 * (current + 1) - 6 above it. -/
noncomputable def get_nodes_vdisps_moment_on_nodes_160 (E : ℚ) (b : Bridge)
    (nBC : ℕ) (P : ℚ) (solveF : (ℕ → ℕ → ℝ) → List ℚ → List ℚ)
    (point : ℚ) : Except PyErr (List ℚ) :=
  if current_node_index point = 0 ∨
      current_node_index point = ((nBC / 2 : ℕ) : ℤ) ∨
      current_node_index point = (nBC : ℤ) - 1 then
    match Bridge.reduced_K E b with
    | Except.error e => Except.error e
    | Except.ok rK => Except.ok (List.replicate rK.1 0)
  else
    match Bridge.reduced_K E b with
    | Except.error e => Except.error e
    | Except.ok rK =>
      Except.ok (solveF rK.2 (List.ofFn (fun k : Fin rK.1 =>
        if current_node_index point < ((nBC / 2 : ℕ) : ℤ) then
          (if (k : ℤ) = 4 * (current_node_index point + 1) - 5 then -P else 0)
        else
          (if (k : ℤ) = 4 * (current_node_index point + 1) - 6 then -P else 0))))

/-- First node of the C8 counterexample bridge. -/
def c8_node1 : Node := ⟨1, 0, 0⟩

/-- Second node of the C8 counterexample bridge (vertically above the
first, so the member is exactly vertical with length 1). -/
def c8_node2 : Node := ⟨2, 0, 1⟩

/-- A member whose section data [0.02, 0.02, 0.01, 0] yields the negative
computed area 2 * 0.02 * 0 + (0.02 - 0.04) * 0.01 = -0.0002. -/
def c8_unit : Unit := ⟨1, c8_node1, c8_node2, [1 / 50, 1 / 50, 1 / 100, 0]⟩

/-- The one-member bridge carrying c8_unit (span length 64). -/
def c8_bridge : Bridge := ⟨[c8_unit], 64⟩

/-- A member with the same geometry but well-formed section data
[1, 0.02, 0.01, 0.3] of positive area 0.0216, for contrast: assembly fails
for it exactly as for the malformed member. -/
def c8_good_unit : Unit := ⟨2, c8_node1, c8_node2, [1, 1 / 50, 1 / 100, 3 / 10]⟩

/-- The one-member bridge carrying c8_good_unit (span length 64). -/
def c8_good_bridge : Bridge := ⟨[c8_good_unit], 64⟩

/-- C1, counterexample: at height 1.0, flange thickness 0.02, web
thickness 0.01, flange width 0.3 the computed area is 0.0216 = 27/1250,
while the formula written in the spec gives 0.016 = 2/125; the two
disagree, so the area property does not implement the formula of the
claim. -/
theorem c1_area_counterexample :
    Unit.area c1_unit = Except.ok (27 / 1250 : ℚ) ∧
    specArea 1 (1 / 50) (1 / 100) (3 / 10) = (2 / 125 : ℚ) ∧
    (27 / 1250 : ℚ) ≠ (2 / 125 : ℚ) := by
  refine ⟨by norm_num [Unit.area, c1_unit], by norm_num [specArea], by norm_num⟩

/-- C1, amended: for every member the computed area is
2 * flange_thickness * flange_width +
(height - 2 * flange_thickness) * web_thickness (the second term uses the
flange THICKNESS, not the flange width as the claim states), and at the
concrete dimensions of the claim the area is 0.0216. -/
theorem c1_area_formula (a b c d : ℚ) :
    Unit.area ⟨1, node0, node0, [a, b, c, d]⟩ =
      Except.ok (2 * b * d + (a - 2 * b) * c) ∧
    Unit.area c1_unit = Except.ok (27 / 1250 : ℚ) :=
  ⟨rfl, by norm_num [Unit.area, c1_unit]⟩

/-- C2: every call of the worst-case load search on a bridge with at least
one member raises NameError, because get_unit_worst_cases_load_trick calls
the undefined global name compute_uniform_load_max_trick; no extrema are
ever computed or stored. -/
theorem c2_worst_cases_load_raises (af : List ℚ) (rest : List (List ℚ))
    (load : List ℚ) :
    get_worst_cases_load (af :: rest) load = Except.error PyErr.nameError ∧
    (∀ pm nm, get_unit_worst_cases_load_trick af load pm nm =
      Except.error PyErr.nameError) :=
  ⟨rfl, fun _ _ => rfl⟩

/-- C4: the vertical-member test compares the Unit object itself with the
ints of the list, which is always false, so both profiles apply the
chord/diagonal sign rule (negate the magnitude exactly when the local
axial-x component is positive) to every member; in particular member 3,
listed as a vertical, records -5 for magnitude 5 and positive axial-x
component, where the claim requires +5. -/
theorem c4_sign_rule_uniform (u : Unit) (f fij0 : ℚ) :
    signed_axial_force_64 u f fij0 = (if fij0 > 0 then -f else f) ∧
    signed_axial_force_160 u f fij0 = (if fij0 > 0 then -f else f) ∧
    signed_axial_force_64 c4_unit3 5 1 = -5 ∧
    signed_axial_force_160 c4_unit3 5 1 = -5 :=
  ⟨rfl, rfl, rfl, rfl⟩

/-- C6: at load position 76.0 of the two-span profile (between chord
indices 9 and 10, the next node being the centre support) the claim
requires the previous, non-support node to receive its lever-rule share
-(1 - 4/8) = -1/2 at index 4 * (9 + 1) - 5 = 35, but the source compares
the chord index against the literal node number 21, which never matches an
index, so the built force vector is identically zero; the lever shares the
branch computed (and then discarded) are both -1/2. For contrast, at the
interior position 12.0 the single-span profile does place -1/2 on each of
the two bracketing nodes (indices 3 and 7) as the claim describes. -/
theorem c6_between_F160_middle_zero :
    (∀ k : Fin 156, between_nodes_F160 156 21 76 k = 0) ∧
    prev_node_force 76 = -(1 / 2) ∧
    next_node_force 76 = -(1 / 2) ∧
    between_nodes_F64 29 9 0 12 ⟨3, by norm_num⟩ = -(1 / 2) ∧
    between_nodes_F64 29 9 0 12 ⟨7, by norm_num⟩ = -(1 / 2) := by
  have hp76 : prev_node_index 76 = 9 := by norm_num [prev_node_index]
  have hp12 : prev_node_index 12 = 1 := by norm_num [prev_node_index]
  refine ⟨?_, ?_, ?_, ?_, ?_⟩
  · intro k
    simp only [between_nodes_F160, hp76]
    norm_num
  · norm_num [prev_node_force, next_node_force, prev_node_offset, hp76]
  · norm_num [next_node_force, prev_node_offset, hp76]
  · simp only [between_nodes_F64, hp12]
    norm_num [prev_node_force, next_node_force, prev_node_offset, hp12]
  · simp only [between_nodes_F64, hp12]
    norm_num [next_node_force, prev_node_offset, hp12]

/-- C3: the between-node force vector of the single-span profile does not
depend on the unit-load magnitude P at all (the lever forces come from a
hard-coded unit load, unlike the on-node branch, which scales with P), and
at load position 4.0 its entry 3 is -1/2; hence for every invertible
reduced stiffness matrix the solved displacement vector is nonzero even
with P = 0, so a P = 0 sweep does not produce all-zero influence lines. -/
theorem c3_between_force_ignores_P (P R : ℚ)
    (K Kinv : Matrix (Fin 29) (Fin 29) ℚ) (hK : K * Kinv = 1) :
    between_nodes_F64 29 9 P 4 = between_nodes_F64 29 9 R 4 ∧
    between_nodes_F64 29 9 P 4 ⟨3, by norm_num⟩ = -(1 / 2) ∧
    Kinv.mulVec (between_nodes_F64 29 9 P 4) ≠ 0 := by
  have hp4 : prev_node_index 4 = 0 := by norm_num [prev_node_index]
  have h3 : between_nodes_F64 29 9 P 4 ⟨3, by norm_num⟩ = -(1 / 2) := by
    simp only [between_nodes_F64, hp4]
    norm_num [next_node_force, prev_node_offset, hp4]
  refine ⟨rfl, h3, ?_⟩
  intro h0
  have h1 : K.mulVec (Kinv.mulVec (between_nodes_F64 29 9 P 4)) = 0 := by
    rw [h0, Matrix.mulVec_zero]
  rw [Matrix.mulVec_mulVec, hK, Matrix.one_mulVec] at h1
  have h2 : between_nodes_F64 29 9 P 4 ⟨3, by norm_num⟩ = 0 := by
    rw [h1]
    rfl
  rw [h3] at h2
  norm_num at h2

/-- Witness for C3 at P = 0, R = 1 and the identity matrix as reduced
stiffness matrix (which is its own inverse). -/
theorem c3_between_force_ignores_P_witness :
    (1 : Matrix (Fin 29) (Fin 29) ℚ) * 1 = 1 ∧
    (between_nodes_F64 29 9 0 4 = between_nodes_F64 29 9 1 4 ∧
     between_nodes_F64 29 9 0 4 ⟨3, by norm_num⟩ = -(1 / 2) ∧
     (1 : Matrix (Fin 29) (Fin 29) ℚ).mulVec (between_nodes_F64 29 9 0 4) ≠ 0) :=
  ⟨by simp, c3_between_force_ignores_P 0 1 1 1 (by simp)⟩

/-- Helper: Python int() of a natural number cast is that number. -/
theorem pyInt_natCast (n : ℕ) : pyInt ((n : ℕ) : ℚ) = (n : ℤ) := by
  simp [pyInt, Int.floor_natCast]

/-- C5: a sweep position k/10 (k at most 80 * (nBC - 1)) of a bridge with
nBC bottom-chord nodes is classified on-node exactly when it is a multiple
of 8, that is when 80 divides k, which includes both boundary positions;
for the single-span profile position 0 and position 64 classify on-node,
position 4.0 classifies between-node, and the lever split computed there
is one half to each adjacent node. -/
theorem c5_on_node_classification (k nBC : ℕ) (h1 : 1 ≤ nBC)
    (hk : k ≤ 80 * (nBC - 1)) :
    (on_node_classify nBC ((k : ℚ) / 10) = true ↔ 80 ∣ k) ∧
    on_node_classify 9 0 = true ∧
    on_node_classify 9 64 = true ∧
    on_node_classify 9 4 = false ∧
    prev_node_force 4 = -(1 / 2) ∧
    next_node_force 4 = -(1 / 2) := by
  have hp4 : prev_node_index 4 = 0 := by norm_num [prev_node_index]
  refine ⟨?_, ?_, ?_, ?_, ?_, ?_⟩
  · constructor
    · intro h
      simp only [on_node_classify, Bool.and_eq_true, decide_eq_true_eq] at h
      obtain ⟨hint, hmem⟩ := h
      rw [List.mem_map] at hmem
      obtain ⟨i, hi, hpt⟩ := hmem
      have hk80 : (k : ℚ) = 80 * (i : ℚ) := by
        field_simp at hpt
        linarith
      have hkn : k = 80 * i := by exact_mod_cast hk80
      exact ⟨i, hkn⟩
    · rintro ⟨m, rfl⟩
      have hpt : ((80 * m : ℕ) : ℚ) / 10 = ((8 * m : ℕ) : ℚ) := by
        push_cast
        ring
      simp only [on_node_classify, Bool.and_eq_true, decide_eq_true_eq]
      refine ⟨?_, ?_⟩
      · rw [hpt, pyInt_natCast]
        push_cast
        ring
      · rw [hpt]
        refine List.mem_map.mpr ⟨m, List.mem_range.mpr ?_, ?_⟩
        · omega
        · push_cast
          ring
  · norm_num [on_node_classify, pyInt, List.range, List.range.loop]
  · norm_num [on_node_classify, pyInt, List.range, List.range.loop]
  · norm_num [on_node_classify, pyInt, List.range, List.range.loop]
  · norm_num [prev_node_force, next_node_force, prev_node_offset, hp4]
  · norm_num [next_node_force, prev_node_offset, hp4]

/-- Witness for C5 at k = 240 (position 24.0, the third interior node) and
nBC = 9. -/
theorem c5_on_node_classification_witness :
    (1 ≤ 9 ∧ 240 ≤ 80 * (9 - 1)) ∧
    (on_node_classify 9 (((240 : ℕ) : ℚ) / 10) = true ↔ 80 ∣ 240) ∧
    on_node_classify 9 0 = true ∧
    on_node_classify 9 64 = true ∧
    on_node_classify 9 4 = false ∧
    prev_node_force 4 = -(1 / 2) ∧
    next_node_force 4 = -(1 / 2) :=
  ⟨by norm_num, c5_on_node_classification 240 9 (by norm_num) (by norm_num)⟩

/-- Helper: Python indexing with a valid nonnegative index into an array
of zeros yields 0. -/
theorem pyGet_replicate_zero {n : ℕ} {i : ℤ} (h0 : 0 ≤ i) (hn : i < (n : ℤ)) :
    pyGet (List.replicate n 0) i = Except.ok 0 := by
  have hneg : ¬ i < 0 := by omega
  have hm : i.toNat < n := by omega
  simp only [pyGet, hneg, if_false]
  rw [List.getElem?_replicate, if_pos (by simpa using hm)]
  simp [h0]

/-- C7: code bug. The on-node solver of the source never returns the
claimed zero vector: both profiles raise AttributeError at every load
position, support or not, because the support branch itself reads
self.reduced_K.shape[0] and Bridge.K (line 236) reads the undefined
attribute self.n; the theorem first exhibits that raise (for every bridge
value, solver and point) together with its root cause. The remaining
conjuncts verify the behavior the claim describes on the
intended-behavior variants (the same bodies with the self.n read
repaired): support chord indices yield the zero vector for every solver
without a solve, positions 0 and 64 have the support indices 0 and 8, and
every node of the single-span profile then records vertical displacement
exactly 0; likewise the two-span profile at chord indices 0, 10, 20. -/
theorem c7_support_positions_zero (E P : ℚ) (b : Bridge)
    (solveF : (ℕ → ℕ → ℝ) → List ℚ → List ℚ)
    (solve solve2 : List ℚ → List ℚ) (point : ℚ)
    (h : current_node_index point = 0 ∨ current_node_index point = 8) :
    get_nodes_vdisps_moment_on_nodes_64 E b 9 P solveF point =
      Except.error PyErr.attributeError ∧
    get_nodes_vdisps_moment_on_nodes_160 E b 21 P solveF point =
      Except.error PyErr.attributeError ∧
    Bridge.K E b = Except.error PyErr.attributeError ∧
    (∀ nRed, on_nodes_D64_intended nRed 9 P solve point = List.replicate nRed 0) ∧
    current_node_index (0 : ℚ) = 0 ∧
    current_node_index (64 : ℚ) = 8 ∧
    (∀ node_num : ℤ, 1 ≤ node_num → node_num ≤ 16 →
      save_nodes_vdisps_moment_64 1 16 (on_nodes_D64_intended 29 9 P solve point)
        node_num = Except.ok 0) ∧
    (∀ nRed (point2 : ℚ),
      current_node_index point2 = 0 ∨ current_node_index point2 = 10 ∨
        current_node_index point2 = 20 →
      on_nodes_D160_intended nRed 21 P solve2 point2 = List.replicate nRed 0) := by
  have hzero : ∀ nRed, on_nodes_D64_intended nRed 9 P solve point = List.replicate nRed 0 := by
    intro nRed
    simp only [on_nodes_D64_intended]
    split
    · rfl
    · rename_i hf
      exact absurd (by omega) hf
  refine ⟨?_, ?_, rfl, hzero, by norm_num [current_node_index],
    by norm_num [current_node_index], ?_, ?_⟩
  · unfold get_nodes_vdisps_moment_on_nodes_64
    split <;> rfl
  · unfold get_nodes_vdisps_moment_on_nodes_160
    split <;> rfl
  · intro node_num h1 h16
    rw [hzero 29]
    by_cases hend : node_num = 1 ∨ node_num = 16
    · simp [save_nodes_vdisps_moment_64, hend]
    · have h1lt : 1 < node_num ∧ node_num < 16 := by omega
      simp only [save_nodes_vdisps_moment_64, if_neg hend]
      exact pyGet_replicate_zero (by omega) (by omega)
  · intro nRed point2 h2
    simp only [on_nodes_D160_intended]
    split
    · rfl
    · rename_i hf
      exact absurd (by omega) hf

/-- Witness for C7 at point 64 (the right end support), P = 0, E = 0, the
malformed one-member bridge and identity solvers. -/
theorem c7_support_positions_zero_witness :
    (current_node_index (64 : ℚ) = 0 ∨ current_node_index (64 : ℚ) = 8) ∧
    (get_nodes_vdisps_moment_on_nodes_64 0 c8_bridge 9 0 (fun _ l => l) 64 =
       Except.error PyErr.attributeError ∧
     get_nodes_vdisps_moment_on_nodes_160 0 c8_bridge 21 0 (fun _ l => l) 64 =
       Except.error PyErr.attributeError ∧
     Bridge.K 0 c8_bridge = Except.error PyErr.attributeError ∧
     (∀ nRed, on_nodes_D64_intended nRed 9 0 id 64 = List.replicate nRed 0) ∧
     current_node_index (0 : ℚ) = 0 ∧
     current_node_index (64 : ℚ) = 8 ∧
     (∀ node_num : ℤ, 1 ≤ node_num → node_num ≤ 16 →
       save_nodes_vdisps_moment_64 1 16 (on_nodes_D64_intended 29 9 0 id 64)
         node_num = Except.ok 0) ∧
     (∀ nRed (point2 : ℚ),
       current_node_index point2 = 0 ∨ current_node_index point2 = 10 ∨
         current_node_index point2 = 20 →
       on_nodes_D160_intended nRed 21 0 id point2 = List.replicate nRed 0)) :=
  ⟨Or.inr (by norm_num [current_node_index]),
   c7_support_positions_zero 0 0 c8_bridge (fun _ l => l) id id 64
     (Or.inr (by norm_num [current_node_index]))⟩

/-- Helper: after folding the per-position appends over a list of points,
every influence line has grown by exactly the number of points. -/
theorem sweep_foldl_grows (sample : ℚ → ℤ → ℚ) :
    ∀ (pts : List ℚ) (st : List (ℤ × List ℚ)) (p : ℤ × List ℚ),
      p ∈ pts.foldl (fun st point => save_moment_all st (sample point)) st →
      ∃ q ∈ st, p.2.length = q.2.length + pts.length := by
  intro pts
  induction pts with
  | nil =>
    intro st p hp
    exact ⟨p, hp, by simp⟩
  | cons pt pts ih =>
    intro st p hp
    obtain ⟨q, hq, hlen⟩ := ih (save_moment_all st (sample pt)) p hp
    simp only [save_moment_all, List.mem_map] at hq
    obtain ⟨r, hr, rfl⟩ := hq
    refine ⟨r, hr, ?_⟩
    simp at hlen ⊢
    omega

/-- Helper: when every per-position computation succeeds, the fallible
sweep fold equals the pure fold of the per-position appends. -/
theorem sweep_foldlM_total (sample : ℚ → Except PyErr (ℤ → ℚ))
    (g : ℚ → ℤ → ℚ) (hs : ∀ pt, sample pt = Except.ok (g pt)) :
    ∀ (pts : List ℚ) (st : List (ℤ × List ℚ)),
      pts.foldlM
        (fun st point =>
          match sample point with
          | Except.error e => Except.error e
          | Except.ok f => Except.ok (save_moment_all st f)) st =
      Except.ok (pts.foldl (fun st point => save_moment_all st (g point)) st) := by
  intro pts
  induction pts with
  | nil =>
    intro st
    rfl
  | cons pt pts ih =>
    intro st
    rw [List.foldlM_cons]
    rw [hs pt]
    exact ih (save_moment_all st (g pt))

/-- C9: code bug. No sweep of the source ever completes or appends a
single sample: the first discretised position of bc_axis is 0, which the
dispatcher classifies on-node, and the on-node computation raises
AttributeError through self.reduced_K and the undefined self.n, aborting
the loop with every influence line still empty; the first conjunct shows
the sweep propagating whatever exception the first position raises, the
next two exhibit that raise for the single-span profile at position 0.
The remaining conjuncts verify the claimed invariant for the intended,
raise-free computation: a sweep whose per-position samples all succeed
produces influence lines of exactly 80 * (nBC - 1) + 1 samples each,
which is 641 = floor(64 / 0.1) + 1 for the 64 m span with its 9
bottom-chord nodes. -/
theorem c9_sweep_never_completes (keys keys2 : List ℤ) (nBC nBC2 : ℕ)
    (sample sample2 : ℚ → Except PyErr (ℤ → ℚ)) (g : ℚ → ℤ → ℚ) (e : PyErr)
    (E P : ℚ) (b : Bridge) (solveF : (ℕ → ℕ → ℝ) → List ℚ → List ℚ)
    (hs : sample 0 = Except.error e)
    (ht : ∀ pt, sample2 pt = Except.ok (g pt)) :
    sweep_influence_lines keys nBC sample = Except.error e ∧
    get_nodes_vdisps_moment_on_nodes_64 E b 9 P solveF 0 =
      Except.error PyErr.attributeError ∧
    on_node_classify 9 0 = true ∧
    (∃ st, sweep_influence_lines keys2 nBC2 sample2 = Except.ok st ∧
      ∀ p ∈ st, p.2.length = 80 * (nBC2 - 1) + 1) ∧
    80 * (9 - 1) + 1 = 641 ∧
    (⌊(64 : ℚ) / (1 / 10)⌋ + 1 : ℤ) = 641 := by
  refine ⟨?_, ?_, ?_, ?_, by norm_num, by norm_num⟩
  · obtain ⟨t, ht0⟩ : ∃ t, bc_axis nBC = (((0 : ℕ) : ℚ) / 10) :: t :=
      ⟨_, by rw [bc_axis, List.range_succ_eq_map]; rfl⟩
    have h00 : ((0 : ℕ) : ℚ) / 10 = 0 := by norm_num
    unfold sweep_influence_lines
    rw [ht0, h00, List.foldlM_cons]
    rw [hs]
    rfl
  · unfold get_nodes_vdisps_moment_on_nodes_64
    split <;> rfl
  · norm_num [on_node_classify, pyInt, List.range, List.range.loop]
  · refine ⟨(bc_axis nBC2).foldl (fun st point => save_moment_all st (g point))
        (keys2.map (fun k => (k, ([] : List ℚ)))), ?_, ?_⟩
    · unfold sweep_influence_lines
      exact sweep_foldlM_total sample2 g ht (bc_axis nBC2) _
    · intro p hp
      obtain ⟨q, hq, hlen⟩ := sweep_foldl_grows g (bc_axis nBC2) _ p hp
      simp only [List.mem_map] at hq
      obtain ⟨k, hk, rfl⟩ := hq
      simpa [bc_axis] using hlen

/-- Witness for C9: an erroring sample (as the source produces) on the 64
m axis, and a one-point raise-free sweep over a single key. -/
theorem c9_sweep_never_completes_witness :
    ((Except.error PyErr.attributeError : Except PyErr (ℤ → ℚ)) =
       Except.error PyErr.attributeError ∧
     (∀ pt : ℚ, (Except.ok (fun _ : ℤ => (0 : ℚ)) : Except PyErr (ℤ → ℚ)) =
       Except.ok (fun _ : ℤ => (0 : ℚ)))) ∧
    (sweep_influence_lines [3] 9 (fun _ => Except.error PyErr.attributeError) =
       Except.error PyErr.attributeError ∧
     get_nodes_vdisps_moment_on_nodes_64 0 c8_bridge 9 0 (fun _ l => l) 0 =
       Except.error PyErr.attributeError ∧
     on_node_classify 9 0 = true ∧
     (∃ st, sweep_influence_lines [3] 1 (fun _ => Except.ok (fun _ => 0)) =
        Except.ok st ∧ ∀ p ∈ st, p.2.length = 80 * (1 - 1) + 1) ∧
     80 * (9 - 1) + 1 = 641 ∧
     (⌊(64 : ℚ) / (1 / 10)⌋ + 1 : ℤ) = 641) :=
  ⟨⟨rfl, fun _ => rfl⟩,
   c9_sweep_never_completes [3] [3] 9 1
     (fun _ => Except.error PyErr.attributeError)
     (fun _ => Except.ok (fun _ => 0)) (fun _ _ => 0) PyErr.attributeError
     0 0 c8_bridge (fun _ l => l) rfl (fun _ => rfl)⟩

/-- Helper: Python indexing with a nonnegative in-range index always
returns a value. -/
theorem pyGet_total (D : List ℚ) (i : ℤ) (h0 : 0 ≤ i)
    (hl : i < (D.length : ℤ)) : ∃ x, pyGet D i = Except.ok x := by
  have hneg : ¬ i < 0 := by omega
  have hm : i.toNat < D.length := by omega
  simp only [pyGet, hneg, if_false]
  rw [List.getElem?_eq_getElem hm]
  exact ⟨D.get ⟨i.toNat, hm⟩, by simp [h0]⟩

/-- Helper: the 64 m endpoint lookup returns a (u, v) pair for every node
number in the bottom-chord id range 1..16, given the documented reduced
vector length 29. -/
theorem get_u_and_v_64_total (D : List ℚ) (m : ℤ) (hD : D.length = 29)
    (h1 : 1 ≤ m) (h16 : m ≤ 16) :
    ∃ uv, get_u_and_v_64 1 16 D m = Except.ok uv := by
  unfold get_u_and_v_64
  rw [if_neg (by omega : ¬ ¬ (1 ≤ m ∧ m ≤ 16))]
  by_cases hm1 : m = 1
  · rw [if_pos hm1]
    exact ⟨_, rfl⟩
  rw [if_neg hm1]
  by_cases hmid : 1 < m ∧ m < 16
  · rw [if_pos hmid]
    obtain ⟨u, hu⟩ := pyGet_total D (2 * (m - 1) - 2) (by omega) (by omega)
    obtain ⟨v, hv⟩ := pyGet_total D (2 * (m - 1) - 1) (by omega) (by omega)
    rw [hu, hv]
    exact ⟨_, rfl⟩
  · rw [if_neg hmid, if_pos (by omega : m = 16)]
    exact ⟨_, rfl⟩

/-- Helper: the 160 m endpoint lookup returns a (u, v) pair for every node
number in the bottom-chord id range 1..80 (middle node number 21), given
the documented reduced vector length 156. -/
theorem get_u_and_v_160_total (D : List ℚ) (m : ℤ) (hD : D.length = 156)
    (h1 : 1 ≤ m) (h80 : m ≤ 80) :
    ∃ uv, get_u_and_v_160 1 21 80 D m = Except.ok uv := by
  unfold get_u_and_v_160
  rw [if_neg (by omega : ¬ ¬ (1 ≤ m ∧ m ≤ 80))]
  by_cases hm1 : m = 1
  · rw [if_pos hm1]
    exact ⟨_, rfl⟩
  rw [if_neg hm1]
  by_cases hlow : 1 < m ∧ m < 21
  · rw [if_pos hlow]
    obtain ⟨u, hu⟩ := pyGet_total D (2 * (m - 1) - 2) (by omega) (by omega)
    obtain ⟨v, hv⟩ := pyGet_total D (2 * (m - 1) - 1) (by omega) (by omega)
    rw [hu, hv]
    exact ⟨_, rfl⟩
  rw [if_neg hlow]
  by_cases hm21 : m = 21
  · rw [if_pos hm21]
    exact ⟨_, rfl⟩
  rw [if_neg hm21]
  by_cases hhigh : 21 < m ∧ m < 80
  · rw [if_pos hhigh]
    obtain ⟨u, hu⟩ := pyGet_total D (2 * (m - 1) - 3) (by omega) (by omega)
    obtain ⟨v, hv⟩ := pyGet_total D (2 * (m - 1) - 2) (by omega) (by omega)
    rw [hu, hv]
    exact ⟨_, rfl⟩
  · rw [if_neg hhigh, if_pos (by omega : m = 80)]
    exact ⟨_, rfl⟩

/-- C10: in both profiles the endpoint lookup of force recovery fails with
the assertion whenever an endpoint id lies outside the closed range of
bottom-chord ids (1..16 for the single span, 1..80 for the two span), and
under that precondition, with the documented reduced-vector lengths (29
and 156), every branch of the lookup returns a (u, v) pair. -/
theorem c10_endpoint_lookup_totality (i j n : ℤ) (D D2 : List ℚ)
    (hD : D.length = 29) (hD2 : D2.length = 156) :
    (¬ (1 ≤ i ∧ i ≤ 16) →
      unit_endpoint_lookups_64 1 16 D i j = Except.error PyErr.assertionError) ∧
    ((1 ≤ i ∧ i ≤ 16) → ¬ (1 ≤ j ∧ j ≤ 16) →
      unit_endpoint_lookups_64 1 16 D i j = Except.error PyErr.assertionError) ∧
    ((1 ≤ i ∧ i ≤ 16) → (1 ≤ j ∧ j ≤ 16) →
      ∃ uv, unit_endpoint_lookups_64 1 16 D i j = Except.ok uv) ∧
    (¬ (1 ≤ n ∧ n ≤ 80) →
      get_u_and_v_160 1 21 80 D2 n = Except.error PyErr.assertionError) ∧
    ((1 ≤ n ∧ n ≤ 80) →
      ∃ uv, get_u_and_v_160 1 21 80 D2 n = Except.ok uv) := by
  refine ⟨?_, ?_, ?_, ?_, ?_⟩
  · intro hi
    have h64 : get_u_and_v_64 1 16 D i = Except.error PyErr.assertionError := by
      unfold get_u_and_v_64
      rw [if_pos hi]
    unfold unit_endpoint_lookups_64
    rw [h64]
  · intro hi hj
    obtain ⟨uvi, huvi⟩ := get_u_and_v_64_total D i hD hi.1 hi.2
    have h64 : get_u_and_v_64 1 16 D j = Except.error PyErr.assertionError := by
      unfold get_u_and_v_64
      rw [if_pos hj]
    unfold unit_endpoint_lookups_64
    rw [huvi, h64]
  · intro hi hj
    obtain ⟨uvi, huvi⟩ := get_u_and_v_64_total D i hD hi.1 hi.2
    obtain ⟨uvj, huvj⟩ := get_u_and_v_64_total D j hD hj.1 hj.2
    unfold unit_endpoint_lookups_64
    rw [huvi, huvj]
    exact ⟨_, rfl⟩
  · intro hn
    unfold get_u_and_v_160
    rw [if_pos hn]
  · intro hn
    exact get_u_and_v_160_total D2 n hD2 hn.1 hn.2

/-- Witness for C10 with endpoints 5 and 2, node 50 of the two-span
profile and all-zero reduced displacement vectors of the documented
lengths. -/
theorem c10_endpoint_lookup_totality_witness :
    ((List.replicate 29 (0 : ℚ)).length = 29 ∧
     (List.replicate 156 (0 : ℚ)).length = 156) ∧
    ((¬ (1 ≤ (5 : ℤ) ∧ (5 : ℤ) ≤ 16) →
      unit_endpoint_lookups_64 1 16 (List.replicate 29 (0 : ℚ)) 5 2 =
        Except.error PyErr.assertionError) ∧
     ((1 ≤ (5 : ℤ) ∧ (5 : ℤ) ≤ 16) → ¬ (1 ≤ (2 : ℤ) ∧ (2 : ℤ) ≤ 16) →
      unit_endpoint_lookups_64 1 16 (List.replicate 29 (0 : ℚ)) 5 2 =
        Except.error PyErr.assertionError) ∧
     ((1 ≤ (5 : ℤ) ∧ (5 : ℤ) ≤ 16) → (1 ≤ (2 : ℤ) ∧ (2 : ℤ) ≤ 16) →
      ∃ uv, unit_endpoint_lookups_64 1 16 (List.replicate 29 (0 : ℚ)) 5 2 =
        Except.ok uv) ∧
     (¬ (1 ≤ (50 : ℤ) ∧ (50 : ℤ) ≤ 80) →
      get_u_and_v_160 1 21 80 (List.replicate 156 (0 : ℚ)) 50 =
        Except.error PyErr.assertionError) ∧
     ((1 ≤ (50 : ℤ) ∧ (50 : ℤ) ≤ 80) →
      ∃ uv, get_u_and_v_160 1 21 80 (List.replicate 156 (0 : ℚ)) 50 =
        Except.ok uv)) :=
  ⟨⟨by simp, by simp⟩,
   c10_endpoint_lookup_totality 5 2 50 (List.replicate 29 (0 : ℚ))
     (List.replicate 156 (0 : ℚ)) (by simp) (by simp)⟩

/-- Helper: the local stiffness computation succeeds for every member with
a four-entry section list and nonzero length, whatever the sign of its
area. -/
theorem kij_ok (E : ℚ) (u : Unit)
    (harity : ∃ a b c d, u.beam_section_data = [a, b, c, d])
    (hlen : Unit.length u ≠ 0) : ∃ k, Unit.kij E u = Except.ok k := by
  obtain ⟨a, b, c, d, hdata⟩ := harity
  have ha : u.area = Except.ok (2 * b * d + (a - 2 * b) * c) := by
    unfold Unit.area
    rw [hdata]
  unfold Unit.kij
  rw [ha]
  dsimp only
  rw [if_neg hlen]
  exact ⟨_, rfl⟩

/-- C8 (amended): no malformed-section-data validation exists on the path
from section data to stiffness: the area property returns its possibly
non-positive value without raising, the local stiffness kij is computed
from that area without raising (a four-entry section list and a nonzero
length are the only conditions - the sign of the area is never examined),
and global assembly fails for every bridge alike, well-formed or not:
Bridge.K raises AttributeError from the undefined attribute self.n before
looking at any member, so no failure distinct to malformed section data
exists and nothing aborts because of the area. -/
theorem c8_no_section_validation (b : Bridge) (E : ℚ) (u : Unit)
    (harity : ∃ a bb c d, u.beam_section_data = [a, bb, c, d])
    (hlen : Unit.length u ≠ 0) :
    (∃ k, Unit.kij E u = Except.ok k) ∧
    Bridge.K E b = Except.error PyErr.attributeError :=
  ⟨kij_ok E u harity hlen, rfl⟩

/-- Helper: the counterexample member is exactly vertical with length 1. -/
theorem c8_unit_length_one : Unit.length c8_unit = 1 := by
  unfold Unit.length
  norm_num [c8_unit, c8_node1, c8_node2]

/-- C8, counterexample: the member with section data [0.02, 0.02, 0.01, 0]
has computed area -0.0002 < 0 with no error raised, its local stiffness is
computed from that negative area with no error raised, and the only
pipeline failure - Bridge.K raising AttributeError on the undefined
self.n - is the same one raised for a bridge whose member has the
well-formed positive area 0.0216: there is no distinct
malformed-section-data error and no abort caused by the area. -/
theorem c8_negative_area_counterexample :
    Unit.area c8_unit = Except.ok (-(1 / 5000) : ℚ) ∧
    (-(1 / 5000) : ℚ) < 0 ∧
    (Unit.kij 1 c8_unit).isOk = true ∧
    Bridge.K 1 c8_bridge = Except.error PyErr.attributeError ∧
    Unit.area c8_good_unit = Except.ok (27 / 1250 : ℚ) ∧
    (0 : ℚ) < 27 / 1250 ∧
    Bridge.K 1 c8_good_bridge = Except.error PyErr.attributeError := by
  refine ⟨by norm_num [Unit.area, c8_unit], by norm_num, ?_, rfl,
    by norm_num [Unit.area, c8_good_unit], by norm_num, rfl⟩
  obtain ⟨k, hk⟩ := kij_ok 1 c8_unit ⟨1 / 50, 1 / 50, 1 / 100, 0, rfl⟩
    (by rw [c8_unit_length_one]; norm_num)
  rw [hk]
  rfl

/-- Witness for C8 at the malformed one-member bridge. -/
theorem c8_no_section_validation_witness :
    ((∃ a bb c d, c8_unit.beam_section_data = [a, bb, c, d]) ∧
      Unit.length c8_unit ≠ 0) ∧
    ((∃ k, Unit.kij 1 c8_unit = Except.ok k) ∧
     Bridge.K 1 c8_bridge = Except.error PyErr.attributeError) := by
  have harity : ∃ a bb c d, c8_unit.beam_section_data = [a, bb, c, d] :=
    ⟨1 / 50, 1 / 50, 1 / 100, 0, rfl⟩
  have hlen : Unit.length c8_unit ≠ 0 := by
    rw [c8_unit_length_one]
    norm_num
  exact ⟨⟨harity, hlen⟩,
    c8_no_section_validation c8_bridge 1 c8_unit harity hlen⟩

end Py
